import Mathlib

/-!
# Verification of the modex-backend reservation core

Shallow embedding of the reservation engine (`src/services/booking.service.ts`,
function `createBooking`), the booking controller's input validation
(`src/controllers/bookings.controller.ts`, `handleCreateBooking`) and the
expiry reconciler (`src/workers/expiry.worker.ts`, `processExpiryCycle`).

The store is modelled as two lists of rows (`seats`, `bookings`).  A SQL
transaction either commits all of its writes or none of them, so each
operation is a pure function from the pre-state to the post-state: error
paths return the pre-state with only the out-of-transaction "best effort"
cleanup applied.  Injected `Bool` flags stand for nondeterministic store
failures (I/O errors); since every in-transaction failure point leads to the
same unconditional `ROLLBACK`, one failure flag per transaction suffices.
Timestamps are `Nat`; `created_at < now() - D` is rendered as
`created_at + D < now` (all in the same time unit).
-/

set_option maxHeartbeats 1000000
set_option maxRecDepth 100000

namespace Modex

/-- Seat availability status (`seats.status`: `'AVAILABLE' | 'BOOKED'`
in `show.service.ts`; the spec calls `BOOKED` "HELD"). -/
inductive SeatStatus
  | AVAILABLE
  | BOOKED
deriving DecidableEq, Repr

/-- Booking status, from the `Booking` type in `booking.service.ts`. -/
inductive BookingStatus
  | PENDING
  | CONFIRMED
  | FAILED
deriving DecidableEq, Repr

/-- A row of the `seats` table (`SeatRow` in `show.service.ts`). -/
structure Seat where
  id : String
  show_id : String
  seat_number : String
  status : SeatStatus
deriving DecidableEq, Repr

/-- A row of the `bookings` table (`Booking` in `booking.service.ts`).
`seats` is the list of seat ids captured at creation. -/
structure Booking where
  id : String
  show_id : String
  user_id : Option String
  seats : List String
  status : BookingStatus
  created_at : Nat
  updated_at : Nat
deriving DecidableEq, Repr

/-- The shared relational store: the two tables the core mutates. -/
structure Store where
  seats : List Seat
  bookings : List Booking
deriving DecidableEq, Repr

/-- The errors `createBooking` / the booking controller can signal.
`showIdRequired`, `emptySeatNumbers`, `blankSeatNumber` are the validation
throws; `seatsDoNotExist` is "One or more seats do not exist for this show."
(UnitNotFound); `seatUnavailable` is "Seat _ is already booked or
unavailable." (UnitUnavailable); `storeFailure` stands for any store-level
error (I/O, deadlock victim, constraint violation). -/
inductive BookingError
  | showIdRequired
  | emptySeatNumbers
  | blankSeatNumber
  | seatsDoNotExist
  | seatUnavailable (label : String)
  | storeFailure
deriving DecidableEq, Repr

/-- The `SELECT ... FOR UPDATE` of `createBooking`: the seat rows of the
given show whose `seat_number` is in the requested array.  Row order is the
store's row order (the embedding's stand-in for the unspecified order in
which the statement returns rows). -/
def lockSeats (store : Store) (showId : String) (seatNumbers : List String) : List Seat :=
  store.seats.filter (fun s => s.show_id == showId && seatNumbers.contains s.seat_number)

/-- `UPDATE bookings SET status = 'FAILED' WHERE id = $1` — the best-effort
cleanup in `createBooking`'s catch block, run outside the rolled-back
transaction. -/
def markBookingFailed (bs : List Booking) (bookingId : String) : List Booking :=
  bs.map (fun b => if b.id == bookingId then { b with status := BookingStatus.FAILED } else b)

/-- State after `ROLLBACK` plus the best-effort cleanup.  The inner
`try/catch` around the cleanup ignores a failing cleanup query
(`cleanupFails = true` ⇒ the update never lands). -/
def rollbackCleanup (store : Store) (bookingId : String) (cleanupFails : Bool) : Store :=
  if cleanupFails then store
  else { store with bookings := markBookingFailed store.bookings bookingId }

/-- `createBooking` from `booking.service.ts`.  `bookingId` is the freshly
generated `uuidv4()`; `now` the insertion timestamp; `storeFails` injects a
store failure inside the transaction (all such failures roll back to the same
state, so the flag is placed at the last failure point, just before
`COMMIT`). -/
def createBooking (store : Store) (bookingId showId : String) (seatNumbers : List String)
    (userId : Option String) (now : Nat) (storeFails cleanupFails : Bool) :
    Store × Except BookingError Booking :=
  if showId == "" then (store, Except.error BookingError.showIdRequired)
  else if seatNumbers.isEmpty then (store, Except.error BookingError.emptySeatNumbers)
  else
    let locked := lockSeats store showId seatNumbers
    if locked.length ≠ seatNumbers.length then
      (rollbackCleanup store bookingId cleanupFails, Except.error BookingError.seatsDoNotExist)
    else
      match locked.find? (fun s => s.status != SeatStatus.AVAILABLE) with
      | some taken =>
          (rollbackCleanup store bookingId cleanupFails,
           Except.error (BookingError.seatUnavailable taken.seat_number))
      | none =>
          let seatIds := locked.map (fun s => s.id)
          let booking : Booking :=
            { id := bookingId, show_id := showId, user_id := userId, seats := seatIds,
              status := BookingStatus.PENDING, created_at := now, updated_at := now }
          if storeFails then
            (rollbackCleanup store bookingId cleanupFails, Except.error BookingError.storeFailure)
          else
            ({ seats := store.seats.map (fun s =>
                 if seatIds.contains s.id then { s with status := SeatStatus.BOOKED } else s),
               bookings := store.bookings ++ [booking] },
             Except.ok booking)

/-- `getBooking` from `booking.service.ts` (read-only lookup). -/
def getBooking (store : Store) (bookingId : String) : Option Booking :=
  store.bookings.find? (fun b => b.id == bookingId)

/-- Model of JavaScript `s.trim()` (as used by `handleCreateBooking` in
`bookings.controller.ts`): drop whitespace from both ends of the string. -/
def trimString (s : String) : String :=
  String.mk ((s.data.dropWhile Char.isWhitespace).reverse.dropWhile Char.isWhitespace).reverse

/-- The seat-number validation performed by `handleCreateBooking` in
`bookings.controller.ts` before the service is called: reject an empty
array, reject any entry that is blank after trimming, and pass
`seatNumbers.map(s => s.trim())` on to the service. -/
def validateSeatNumbers (seatNumbers : List String) : Except BookingError (List String) :=
  if seatNumbers.isEmpty then Except.error BookingError.emptySeatNumbers
  else if seatNumbers.any (fun s => (trimString s).length == 0) then
    Except.error BookingError.blankSeatNumber
  else Except.ok (seatNumbers.map trimString)

/-- `handleCreateBooking` (controller): validation followed by the service
call.  A validation failure never touches the store. -/
def handleCreateBooking (store : Store) (bookingId showId : String)
    (seatNumbers : List String) (userId : Option String) (now : Nat)
    (storeFails cleanupFails : Bool) : Store × Except BookingError Booking :=
  match validateSeatNumbers seatNumbers with
  | Except.error e => (store, Except.error e)
  | Except.ok labels => createBooking store bookingId showId labels userId now storeFails cleanupFails

/-- One per-candidate transaction of `processExpiryCycle`
(`expiry.worker.ts` lines 239–277): lock the booking row; skip when absent
or no longer `PENDING`; otherwise set it `FAILED` and its seats
`AVAILABLE`, in one transaction. -/
def expireItem (store : Store) (bookingId : String) (now : Nat) : Store :=
  match store.bookings.find? (fun b => b.id == bookingId) with
  | none => store
  | some b =>
    if b.status ≠ BookingStatus.PENDING then store
    else
      { bookings := store.bookings.map (fun b2 =>
          if b2.id == bookingId then
            { b2 with status := BookingStatus.FAILED, updated_at := now } else b2),
        seats := store.seats.map (fun s =>
          if b.seats.contains s.id then { s with status := SeatStatus.AVAILABLE } else s) }

/-- The candidate filter of the reconciler's query:
`status = 'PENDING' AND created_at < now() - D`. -/
def isStalePending (now d : Nat) (b : Booking) : Bool :=
  b.status == BookingStatus.PENDING && decide (b.created_at + d < now)

/-- The candidate query: stale pending bookings, `ORDER BY created_at ASC`,
`LIMIT 100`, projected to ids. -/
def expiryCandidates (store : Store) (now d : Nat) : List String :=
  ((List.insertionSort (fun a b => a.created_at ≤ b.created_at)
      (store.bookings.filter (isStalePending now d))).take 100).map (fun b => b.id)

/-- The per-item loop of `processExpiryCycle`.  `itemFails bid = true`
models that candidate's transaction failing at some point: its writes roll
back (state unchanged for that item), the error is logged, and the loop
continues with the next candidate. -/
def runBatch (store : Store) (now : Nat) (cands : List String) (itemFails : String → Bool) :
    Store :=
  cands.foldl (fun st bid => if itemFails bid then st else expireItem st bid now) store

/-- `processExpiryCycle`: if the advisory lock was not obtained the cycle is
skipped entirely; otherwise the candidate list is computed once and each
candidate processed in its own transaction. -/
def processExpiryCycle (store : Store) (now d : Nat) (gotLock : Bool)
    (itemFails : String → Bool) : Store :=
  if gotLock then runBatch store now (expiryCandidates store now d) itemFails else store

/-- A booking is non-terminal when `PENDING` or `CONFIRMED`. -/
def nonTerminal (b : Booking) : Bool :=
  b.status == BookingStatus.PENDING || b.status == BookingStatus.CONFIRMED

/-- The non-terminal bookings (in a bookings table) referencing a given
seat id. -/
def holders (bs : List Booking) (seatId : String) : List Booking :=
  bs.filter (fun b => nonTerminal b && b.seats.contains seatId)

/-- The per-seat agreement invariant of the spec: at most one non-terminal
holder, and the seat is `BOOKED` exactly when a non-terminal booking
references it. -/
def SeatAgrees (bs : List Booking) (s : Seat) : Prop :=
  (holders bs s.id).length ≤ 1 ∧ (s.status = SeatStatus.BOOKED ↔ holders bs s.id ≠ [])

/-- The store-wide holding invariant. -/
def Invariant (store : Store) : Prop :=
  ∀ s ∈ store.seats, SeatAgrees store.bookings s

/-- Schema well-formedness: primary keys are unique. -/
def WFStore (store : Store) : Prop :=
  (store.seats.map (fun s => s.id)).Nodup ∧ (store.bookings.map (fun b => b.id)).Nodup

deriving instance DecidableEq for Except

instance (store : Store) : Decidable (Invariant store) := by
  unfold Invariant SeatAgrees
  exact inferInstance

instance (store : Store) : Decidable (WFStore store) := by
  unfold WFStore
  exact inferInstance

/-- A stale pending booking, used to build a backlog of more than 100
expiry candidates. -/
def mkStale (i : Nat) : Booking :=
  ⟨toString i, "g", none, [], BookingStatus.PENDING, i, i⟩

/-- A store with 101 stale pending bookings; the newest one ("z") falls
outside the reconciler's LIMIT 100 batch. -/
def bigStore : Store :=
  ⟨[], ((List.range 100).map mkStale)
    ++ [⟨"z", "g", none, [], BookingStatus.PENDING, 100, 100⟩]⟩

/-- The reachable store states: from the empty store, any interleaving of
`createShow`-style seat insertion (new seats are inserted `AVAILABLE`),
reserve calls (any arguments, any injected failures) and reconciler cycles. -/
inductive Reachable : Store → Prop
  | init : Reachable ⟨[], []⟩
  | addSeats (st : Store) (new : List Seat) :
      (∀ s ∈ new, s.status = SeatStatus.AVAILABLE) → Reachable st →
      Reachable ⟨st.seats ++ new, st.bookings⟩
  | reserve (st : Store) (bookingId showId : String) (seatNumbers : List String)
      (userId : Option String) (now : Nat) (sf cf : Bool) : Reachable st →
      Reachable (createBooking st bookingId showId seatNumbers userId now sf cf).1
  | expiry (st : Store) (now d : Nat) (gl : Bool) (fails : String → Bool) :
      Reachable st → Reachable (processExpiryCycle st now d gl fails)

/-- "Every booking's status is PENDING or FAILED" — the statuses the code can
actually write. -/
def StatusOk (store : Store) : Prop :=
  ∀ b ∈ store.bookings, b.status = BookingStatus.PENDING ∨ b.status = BookingStatus.FAILED


theorem markBookingFailed_eq_of_notMem (bs : List Booking) (bookingId : String) :
    bookingId ∉ bs.map (fun b => b.id) → markBookingFailed bs bookingId = bs := by
  induction bs with
  | nil => intro _; rfl
  | cons b bs ih =>
    intro h
    simp only [List.map_cons, List.mem_cons, not_or] at h
    have hb : (b.id == bookingId) = false := by
      simp only [beq_eq_false_iff_ne, ne_eq]
      exact fun he => h.1 he.symm
    have hbs := ih h.2
    simp only [markBookingFailed] at hbs ⊢
    rw [List.map_cons, if_neg (by simp [hb]), hbs]

theorem rollbackCleanup_eq_of_fresh (store : Store) (bookingId : String) (cf : Bool)
    (h : bookingId ∉ store.bookings.map (fun b => b.id)) :
    rollbackCleanup store bookingId cf = store := by
  cases cf with
  | true => rfl
  | false => simp [rollbackCleanup, markBookingFailed_eq_of_notMem _ _ h]

theorem createBooking_fst_of_error (store : Store) (bookingId showId : String)
    (seatNumbers : List String) (userId : Option String) (now : Nat) (sf cf : Bool)
    (hfresh : bookingId ∉ store.bookings.map (fun b => b.id)) (e : BookingError)
    (h : (createBooking store bookingId showId seatNumbers userId now sf cf).2
        = Except.error e) :
    (createBooking store bookingId showId seatNumbers userId now sf cf).1 = store := by
  by_cases hs : (showId == "") = true
  · simp [createBooking, hs]
  · by_cases he : seatNumbers.isEmpty = true
    · simp [createBooking, hs, he]
    · by_cases hl : (lockSeats store showId seatNumbers).length = seatNumbers.length
      · cases hf : (lockSeats store showId seatNumbers).find?
            (fun s => s.status != SeatStatus.AVAILABLE) with
        | some taken =>
            simp [createBooking, hs, he, hl, hf, rollbackCleanup_eq_of_fresh _ _ _ hfresh]
        | none =>
            cases sf with
            | true =>
                simp [createBooking, hs, he, hl, hf, rollbackCleanup_eq_of_fresh _ _ _ hfresh]
            | false =>
                exfalso
                simp [createBooking, hs, he, hl, hf] at h
      · simp [createBooking, hs, he, hl, rollbackCleanup_eq_of_fresh _ _ _ hfresh]

theorem createBooking_ok_spec (store : Store) (bookingId showId : String)
    (seatNumbers : List String) (userId : Option String) (now : Nat) (sf cf : Bool)
    (b : Booking)
    (h : (createBooking store bookingId showId seatNumbers userId now sf cf).2 = Except.ok b) :
    b = { id := bookingId, show_id := showId, user_id := userId,
          seats := (lockSeats store showId seatNumbers).map (fun s => s.id),
          status := BookingStatus.PENDING, created_at := now, updated_at := now } ∧
    (createBooking store bookingId showId seatNumbers userId now sf cf).1 =
      { seats := store.seats.map (fun s =>
          if ((lockSeats store showId seatNumbers).map (fun s2 => s2.id)).contains s.id then
            { s with status := SeatStatus.BOOKED } else s),
        bookings := store.bookings ++ [b] } ∧
    (∀ s ∈ lockSeats store showId seatNumbers, s.status = SeatStatus.AVAILABLE) ∧
    (lockSeats store showId seatNumbers).length = seatNumbers.length ∧
    seatNumbers ≠ [] ∧ showId ≠ "" ∧ sf = false := by
  by_cases hs : (showId == "") = true
  · exfalso; simp [createBooking, hs] at h
  · by_cases he : seatNumbers.isEmpty = true
    · exfalso; simp [createBooking, hs, he] at h
    · by_cases hl : (lockSeats store showId seatNumbers).length = seatNumbers.length
      · cases hf : (lockSeats store showId seatNumbers).find?
            (fun s => s.status != SeatStatus.AVAILABLE) with
        | some taken => exfalso; simp [createBooking, hs, he, hl, hf] at h
        | none =>
            cases sf with
            | true => exfalso; simp [createBooking, hs, he, hl, hf] at h
            | false =>
                have hb : b =
                    { id := bookingId, show_id := showId, user_id := userId,
                      seats := (lockSeats store showId seatNumbers).map (fun s => s.id),
                      status := BookingStatus.PENDING, created_at := now,
                      updated_at := now } := by
                  simp [createBooking, hs, he, hl, hf] at h
                  exact h.symm
                refine ⟨hb, ?_, ?_, hl, by simpa using he, by simpa using hs, rfl⟩
                · simp [createBooking, hs, he, hl, hf, hb]
                · intro s hsmem
                  have := List.find?_eq_none.mp hf s hsmem
                  simpa using this
      · exfalso; simp [createBooking, hs, he, hl] at h

/-- C1: if `Reserve` (`createBooking`) fails at any step — validation,
UnitNotFound, UnitUnavailable, or an injected store failure — the store
after the call (rollback plus best-effort cleanup, with the booking id fresh
as `uuidv4` guarantees) equals the store before it: no seat changes status
and no booking row persists.  On success the caller gets a `PENDING`
reservation recorded in the store and holding (status `BOOKED`) exactly the
requested units. -/
theorem c1_reserve_atomicity (store : Store) (bookingId showId : String)
    (seatNumbers : List String) (userId : Option String) (now : Nat) (sf cf : Bool)
    (hfresh : bookingId ∉ store.bookings.map (fun b => b.id)) :
    (∀ e, (createBooking store bookingId showId seatNumbers userId now sf cf).2
        = Except.error e →
      (createBooking store bookingId showId seatNumbers userId now sf cf).1 = store) ∧
    (∀ b, (createBooking store bookingId showId seatNumbers userId now sf cf).2
        = Except.ok b →
      b.status = BookingStatus.PENDING ∧
      b.seats = (lockSeats store showId seatNumbers).map (fun s => s.id) ∧
      b ∈ (createBooking store bookingId showId seatNumbers userId now sf cf).1.bookings ∧
      (∀ s ∈ (createBooking store bookingId showId seatNumbers userId now sf cf).1.seats,
        s.id ∈ b.seats → s.status = SeatStatus.BOOKED)) := by
  constructor
  · exact fun e he => createBooking_fst_of_error _ _ _ _ _ _ _ _ hfresh e he
  · intro b hb
    obtain ⟨hbval, hfst, _, _, _, _, _⟩ := createBooking_ok_spec _ _ _ _ _ _ _ _ b hb
    refine ⟨by rw [hbval], by rw [hbval], ?_, ?_⟩
    · rw [hfst]; simp
    · intro s hsmem hsid
      rw [hfst] at hsmem
      simp only [List.mem_map] at hsmem
      obtain ⟨s₀, hs₀, rfl⟩ := hsmem
      by_cases hc :
          (((lockSeats store showId seatNumbers).map (fun s2 => s2.id)).contains s₀.id) = true
      · rw [if_pos hc]
      · rw [if_neg hc] at hsid ⊢
        exfalso
        rw [hbval] at hsid
        simp only [List.mem_map] at hsid
        obtain ⟨a, ha, ha2⟩ := hsid
        have hmem : s₀.id ∈ (lockSeats store showId seatNumbers).map (fun s2 => s2.id) :=
          List.mem_map.mpr ⟨a, ha, ha2⟩
        exact hc (by simpa using hmem)


/-- C4 (amended): before any locking the controller rejects an empty seat
list and rejects blank entries, then passes the trimmed (but NOT
deduplicated) labels to the engine; the engine itself also rejects an empty
list before opening a transaction, leaving the store untouched. -/
theorem c4_labels_trimmed (seatNumbers : List String) :
    (seatNumbers = [] →
      validateSeatNumbers seatNumbers = Except.error BookingError.emptySeatNumbers) ∧
    (∀ labels, validateSeatNumbers seatNumbers = Except.ok labels →
      labels = seatNumbers.map trimString ∧ labels ≠ []) ∧
    (∀ store bookingId showId userId now sf cf labels,
      validateSeatNumbers seatNumbers = Except.ok labels →
      handleCreateBooking store bookingId showId seatNumbers userId now sf cf
        = createBooking store bookingId showId labels userId now sf cf) ∧
    (∀ store : Store, ∀ bookingId showId : String, ∀ userId : Option String,
      ∀ now : Nat, ∀ sf cf : Bool,
      handleCreateBooking store bookingId showId [] userId now sf cf
        = (store, Except.error BookingError.emptySeatNumbers)) := by
  refine ⟨?_, ?_, ?_, ?_⟩
  · intro h; subst h; rfl
  · intro labels h
    by_cases he : seatNumbers.isEmpty = true
    · exfalso; simp [validateSeatNumbers, he] at h
    · by_cases hblank : seatNumbers.any (fun s => (trimString s).length == 0) = true
      · exfalso; simp [validateSeatNumbers, he, hblank] at h
      · simp [validateSeatNumbers, he, hblank] at h
        refine ⟨h.symm, ?_⟩
        rw [h.symm] at *
        intro hnil
        rw [List.map_eq_nil_iff] at hnil
        simp [hnil] at he
  · intro store bookingId showId userId now sf cf labels h
    simp [handleCreateBooking, h]
  · intro store bookingId showId userId now sf cf
    rfl

/-- C4 counterexample: the duplicated request ["1","1"] passes the
controller validation unchanged, so the label list handed to the engine
(and hence to the locking query) still contains a duplicate — labels are
trimmed but NOT deduplicated; against a store whose show has exactly seat
"1" the duplicate then trips the row-count check and the call fails even
though every requested label exists. -/
theorem c4_no_dedup_counterexample :
    validateSeatNumbers ["1", "1"] = Except.ok ["1", "1"] ∧
    ¬ (["1", "1"] : List String).Nodup ∧
    handleCreateBooking ⟨[⟨"s1", "g", "1", SeatStatus.AVAILABLE⟩], []⟩ "b1" "g"
        ["1", "1"] none 0 false false
      = (⟨[⟨"s1", "g", "1", SeatStatus.AVAILABLE⟩], []⟩,
         Except.error BookingError.seatsDoNotExist) := by
  refine ⟨by decide, by decide, by decide⟩

/-- C8: for a candidate id whose booking row no longer exists, or whose
booking is no longer `PENDING` at row-lock time, the reconciler's per-item
transaction leaves the store completely unchanged. -/
theorem c8_reconciler_skips (store : Store) (bookingId : String) (now : Nat) :
    (store.bookings.find? (fun b => b.id == bookingId) = none →
      expireItem store bookingId now = store) ∧
    (∀ b, store.bookings.find? (fun b2 => b2.id == bookingId) = some b →
      b.status ≠ BookingStatus.PENDING → expireItem store bookingId now = store) := by
  constructor
  · intro h; simp [expireItem, h]
  · intro b hb hst; simp [expireItem, hb, hst]

/-- Witness for C8 at a concrete store: an absent booking id and a
non-`PENDING` (already `FAILED`) booking are both skipped unchanged. -/
theorem c8_reconciler_skips_witness :
    expireItem ⟨[⟨"s1", "g", "1", SeatStatus.AVAILABLE⟩],
        [⟨"b0", "g", none, ["s1"], BookingStatus.FAILED, 0, 0⟩]⟩ "nope" 9
      = ⟨[⟨"s1", "g", "1", SeatStatus.AVAILABLE⟩],
        [⟨"b0", "g", none, ["s1"], BookingStatus.FAILED, 0, 0⟩]⟩ ∧
    expireItem ⟨[⟨"s1", "g", "1", SeatStatus.AVAILABLE⟩],
        [⟨"b0", "g", none, ["s1"], BookingStatus.FAILED, 0, 0⟩]⟩ "b0" 9
      = ⟨[⟨"s1", "g", "1", SeatStatus.AVAILABLE⟩],
        [⟨"b0", "g", none, ["s1"], BookingStatus.FAILED, 0, 0⟩]⟩ :=
  ⟨(c8_reconciler_skips _ "nope" 9).1 (by decide),
   (c8_reconciler_skips _ "b0" 9).2 ⟨"b0", "g", none, ["s1"], BookingStatus.FAILED, 0, 0⟩
     (by decide) (by decide)⟩

/-- C7: after locking, the first listed seat that is not `AVAILABLE`
determines the error — the call fails `UnitUnavailable` with that seat's
label and the store is left unchanged. -/
theorem c7_first_unavailable (store : Store) (bookingId showId : String)
    (seatNumbers : List String) (userId : Option String) (now : Nat) (sf cf : Bool)
    (pre rest : List Seat) (t : Seat)
    (hfresh : bookingId ∉ store.bookings.map (fun b => b.id))
    (hshow : showId ≠ "")
    (hlock : lockSeats store showId seatNumbers = pre ++ t :: rest)
    (hcount : (pre ++ t :: rest).length = seatNumbers.length)
    (hpre : ∀ s ∈ pre, s.status = SeatStatus.AVAILABLE)
    (ht : t.status ≠ SeatStatus.AVAILABLE) :
    createBooking store bookingId showId seatNumbers userId now sf cf
      = (store, Except.error (BookingError.seatUnavailable t.seat_number)) := by
  have hne : seatNumbers ≠ [] := by
    intro h0; rw [h0] at hcount; simp at hcount
  have hfind : (lockSeats store showId seatNumbers).find?
      (fun s => s.status != SeatStatus.AVAILABLE) = some t := by
    rw [hlock, List.find?_append]
    have h1 : pre.find? (fun s => s.status != SeatStatus.AVAILABLE) = none :=
      List.find?_eq_none.mpr (fun x hx => by simp [hpre x hx])
    rw [h1]
    simp [ht]
  have hs : (showId == "") = false := by simpa using hshow
  have he : seatNumbers.isEmpty = false := by simpa using hne
  have hlen : (lockSeats store showId seatNumbers).length = seatNumbers.length := by
    rw [hlock]; exact hcount
  simp [createBooking, hs, he, hlen, hfind, rollbackCleanup_eq_of_fresh _ _ _ hfresh]

/-- Witness for C7: the spec scenario — seats {1,2,3}, seats 1 and 2 held by
a pending booking; reserving ["2","3"] fails `UnitUnavailable("2")` and the
store (hence seat 3, still `AVAILABLE`) is unchanged. -/
theorem c7_first_unavailable_witness :
    createBooking ⟨[⟨"s1", "g", "1", SeatStatus.BOOKED⟩, ⟨"s2", "g", "2", SeatStatus.BOOKED⟩,
        ⟨"s3", "g", "3", SeatStatus.AVAILABLE⟩],
        [⟨"b0", "g", some "u1", ["s1", "s2"], BookingStatus.PENDING, 0, 0⟩]⟩
      "b1" "g" ["2", "3"] (some "u2") 5 false false
      = (⟨[⟨"s1", "g", "1", SeatStatus.BOOKED⟩, ⟨"s2", "g", "2", SeatStatus.BOOKED⟩,
          ⟨"s3", "g", "3", SeatStatus.AVAILABLE⟩],
          [⟨"b0", "g", some "u1", ["s1", "s2"], BookingStatus.PENDING, 0, 0⟩]⟩,
         Except.error (BookingError.seatUnavailable "2")) :=
  c7_first_unavailable _ "b1" "g" ["2", "3"] (some "u2") 5 false false
    [] [⟨"s3", "g", "3", SeatStatus.AVAILABLE⟩] ⟨"s2", "g", "2", SeatStatus.BOOKED⟩
    (by decide) (by decide) (by decide) (by decide) (by decide) (by decide)

theorem mem_lockSeats (store : Store) (showId : String) (seatNumbers : List String)
    (s : Seat) :
    s ∈ lockSeats store showId seatNumbers ↔
      s ∈ store.seats ∧ s.show_id = showId ∧ s.seat_number ∈ seatNumbers := by
  simp [lockSeats, List.mem_filter]

/-- C6 (amended): a locked-row count differing from the request count makes
`createBooking` fail `UnitNotFound` with the store unchanged; and — provided
the requested labels are pairwise distinct — the mismatch happens exactly
when some requested label has no seat row in the show. -/
theorem c6_rowcount_mismatch (store : Store) (bookingId showId : String)
    (seatNumbers : List String) (userId : Option String) (now : Nat) (sf cf : Bool)
    (hfresh : bookingId ∉ store.bookings.map (fun b => b.id))
    (hpairs : (store.seats.map (fun s => (s.show_id, s.seat_number))).Nodup)
    (hnd : seatNumbers.Nodup) (hshow : showId ≠ "") (hne : seatNumbers ≠ []) :
    ((lockSeats store showId seatNumbers).length ≠ seatNumbers.length ↔
      ∃ lab ∈ seatNumbers, ∀ s ∈ store.seats,
        ¬(s.show_id = showId ∧ s.seat_number = lab)) ∧
    ((lockSeats store showId seatNumbers).length ≠ seatNumbers.length →
      createBooking store bookingId showId seatNumbers userId now sf cf
        = (store, Except.error BookingError.seatsDoNotExist)) := by
  have hs : (showId == "") = false := by simpa using hshow
  have he : seatNumbers.isEmpty = false := by simpa using hne
  -- the labels of the locked rows
  have hLnodup : ((lockSeats store showId seatNumbers).map (fun s => s.seat_number)).Nodup := by
    have hsub : List.Sublist
        ((lockSeats store showId seatNumbers).map (fun s => (s.show_id, s.seat_number)))
        (store.seats.map (fun s => (s.show_id, s.seat_number))) :=
      List.Sublist.map _ (List.filter_sublist store.seats)
    have hpnod := hsub.nodup hpairs
    have hlz : (lockSeats store showId seatNumbers).map (fun s => s.seat_number)
        = ((lockSeats store showId seatNumbers).map (fun s => (s.show_id, s.seat_number))).map
            Prod.snd := by
      simp [List.map_map, Function.comp]
    rw [hlz]
    refine hpnod.map_on ?_
    intro x hx y hy hxy
    simp only [List.mem_map] at hx hy
    obtain ⟨sx, hsx, rfl⟩ := hx
    obtain ⟨sy, hsy, rfl⟩ := hy
    have hx2 := (mem_lockSeats store showId seatNumbers sx).mp hsx
    have hy2 := (mem_lockSeats store showId seatNumbers sy).mp hsy
    simp only [Prod.mk.injEq]
    exact ⟨hx2.2.1.trans hy2.2.1.symm, hxy⟩
  have hLsub : ((lockSeats store showId seatNumbers).map (fun s => s.seat_number))
      ⊆ seatNumbers := by
    intro lab hlab
    simp only [List.mem_map] at hlab
    obtain ⟨s, hsmem, rfl⟩ := hlab
    exact ((mem_lockSeats store showId seatNumbers s).mp hsmem).2.2
  constructor
  · constructor
    · -- mismatch → some label missing
      intro hmis
      by_contra hall
      push_neg at hall
      apply hmis
      have hin : seatNumbers
          ⊆ (lockSeats store showId seatNumbers).map (fun s => s.seat_number) := by
        intro lab hlab
        obtain ⟨s, hsmem, hsid, hsnum⟩ := hall lab hlab
        refine List.mem_map.mpr ⟨s, ?_, hsnum⟩
        exact (mem_lockSeats store showId seatNumbers s).mpr ⟨hsmem, hsid, hsnum ▸ hlab⟩
      have h1 := (hLnodup.subperm hLsub).length_le
      have h2 := (hnd.subperm hin).length_le
      simp only [List.length_map] at h1 h2
      omega
    · -- some label missing → mismatch
      intro hmiss
      obtain ⟨lab, hlabmem, hmiss⟩ := hmiss
      have hnotin : lab ∉ (lockSeats store showId seatNumbers).map (fun s => s.seat_number) := by
        intro hin
        simp only [List.mem_map] at hin
        obtain ⟨s, hsmem, rfl⟩ := hin
        have h2 := (mem_lockSeats store showId seatNumbers s).mp hsmem
        exact hmiss s h2.1 ⟨h2.2.1, rfl⟩
      have herase : ((lockSeats store showId seatNumbers).map (fun s => s.seat_number))
          ⊆ seatNumbers.erase lab := by
        intro x hx
        refine (List.mem_erase_of_ne ?_).mpr (hLsub hx)
        intro heq
        exact hnotin (heq ▸ hx)
      have h3 := (hLnodup.subperm herase).length_le
      have h4 : (seatNumbers.erase lab).length = seatNumbers.length - 1 :=
        List.length_erase_of_mem hlabmem
      have h5 : 1 ≤ seatNumbers.length := List.length_pos.mpr hne
      simp only [List.length_map] at h3
      omega
  · intro hmis
    have hmis2 : ((lockSeats store showId seatNumbers).length = seatNumbers.length) = False := by
      simp [hmis]
    simp [createBooking, hs, he, hmis2, rollbackCleanup_eq_of_fresh _ _ _ hfresh]

/-- C6 counterexample: with a single seat "1" in the show and the duplicated
request ["1","1"], the locked-row count (1) differs from the request count
(2) even though every requested label exists — refuting the claim's
"mismatch occurs exactly when at least one requested label does not exist". -/
theorem c6_rowcount_counterexample :
    (lockSeats ⟨[⟨"s1", "g", "1", SeatStatus.AVAILABLE⟩], []⟩ "g" ["1", "1"]).length
      ≠ (["1", "1"] : List String).length ∧
    (∀ lab ∈ (["1", "1"] : List String),
      ∃ s ∈ (⟨[⟨"s1", "g", "1", SeatStatus.AVAILABLE⟩], []⟩ : Store).seats,
        s.show_id = "g" ∧ s.seat_number = lab) := by
  decide

/-- Witness for C1: a failing reserve (label "9" absent) at a concrete
one-seat store leaves the store exactly as it was. -/
theorem c1_reserve_atomicity_witness :
    (createBooking ⟨[⟨"s1", "g", "1", SeatStatus.AVAILABLE⟩], []⟩ "b1" "g" ["9"]
        none 3 false false).1
      = ⟨[⟨"s1", "g", "1", SeatStatus.AVAILABLE⟩], []⟩ :=
  (c1_reserve_atomicity ⟨[⟨"s1", "g", "1", SeatStatus.AVAILABLE⟩], []⟩ "b1" "g" ["9"]
      none 3 false false (by decide)).1 BookingError.seatsDoNotExist (by decide)

/-- Witness for C4 (amended): the request [" 1 ", "2"] is passed on trimmed
and non-empty. -/
theorem c4_labels_trimmed_witness :
    (["1", "2"] : List String) = [" 1 ", "2"].map trimString ∧
    (["1", "2"] : List String) ≠ [] :=
  (c4_labels_trimmed [" 1 ", "2"]).2.1 ["1", "2"] (by decide)

/-- Witness for C6 (amended): the spec scenario Reserve(g, ["9"]) with label
"9" absent fails `UnitNotFound` with the store unchanged. -/
theorem c6_rowcount_mismatch_witness :
    createBooking ⟨[⟨"s1", "g", "1", SeatStatus.AVAILABLE⟩], []⟩ "b1" "g" ["9"]
        none 0 false false
      = (⟨[⟨"s1", "g", "1", SeatStatus.AVAILABLE⟩], []⟩,
         Except.error BookingError.seatsDoNotExist) :=
  (c6_rowcount_mismatch ⟨[⟨"s1", "g", "1", SeatStatus.AVAILABLE⟩], []⟩ "b1" "g" ["9"]
      none 0 false false (by decide) (by decide) (by decide) (by decide) (by decide)).2
    (by decide)

theorem holders_append (bs : List Booking) (nb : Booking) (sid : String) :
    holders (bs ++ [nb]) sid
      = holders bs sid
          ++ (if nonTerminal nb && nb.seats.contains sid then [nb] else []) := by
  simp only [holders, List.filter_append, List.filter_cons, List.filter_nil]

theorem length_le_one_mem_eq {l : List Booking} {x : Booking}
    (hlen : l.length ≤ 1) (hx : x ∈ l) : l = [x] := by
  cases l with
  | nil => cases hx
  | cons a t =>
    cases t with
    | nil => rcases List.mem_singleton.mp hx with rfl; rfl
    | cons b t2 => simp at hlen

theorem invariant_commit (store : Store) (showId : String) (seatNumbers : List String)
    (b : Booking)
    (hwfS : (store.seats.map (fun s => s.id)).Nodup)
    (hinv : Invariant store)
    (hbseats : b.seats = (lockSeats store showId seatNumbers).map (fun s => s.id))
    (hbst : b.status = BookingStatus.PENDING)
    (havail : ∀ s ∈ lockSeats store showId seatNumbers, s.status = SeatStatus.AVAILABLE) :
    Invariant
      { seats := store.seats.map (fun s =>
          if ((lockSeats store showId seatNumbers).map (fun s2 => s2.id)).contains s.id then
            { s with status := SeatStatus.BOOKED } else s),
        bookings := store.bookings ++ [b] } := by
  intro s hsmem
  simp only [List.mem_map] at hsmem
  obtain ⟨s₀, hs₀, rfl⟩ := hsmem
  have hnt : nonTerminal b = true := by simp [nonTerminal, hbst]
  by_cases hc :
      (((lockSeats store showId seatNumbers).map (fun s2 => s2.id)).contains s₀.id) = true
  · have hmem0 : s₀.id ∈ (lockSeats store showId seatNumbers).map (fun s2 => s2.id) := by
      simpa using hc
    simp only [List.mem_map] at hmem0
    obtain ⟨s₁, hs₁, hid⟩ := hmem0
    have hs₁seats : s₁ ∈ store.seats := ((mem_lockSeats _ _ _ s₁).mp hs₁).1
    have heq : s₁ = s₀ := List.inj_on_of_nodup_map hwfS hs₁seats hs₀ hid
    have havail0 : s₀.status = SeatStatus.AVAILABLE := heq ▸ havail s₁ hs₁
    have hold := hinv s₀ hs₀
    have hempty : holders store.bookings s₀.id = [] := by
      by_contra hne2
      have hbooked : s₀.status = SeatStatus.BOOKED := hold.2.mpr hne2
      rw [havail0] at hbooked
      exact SeatStatus.noConfusion hbooked
    have hcond : (nonTerminal b && b.seats.contains s₀.id) = true := by
      rw [hnt, hbseats]
      simpa using hc
    rw [if_pos hc]
    constructor
    · rw [holders_append, hempty, if_pos hcond]
      simp
    · rw [holders_append, hempty, if_pos hcond]
      simp
  · rw [if_neg hc]
    have hold := hinv s₀ hs₀
    have hcond : (nonTerminal b && b.seats.contains s₀.id) = false := by
      rw [hbseats]
      cases hx : ((lockSeats store showId seatNumbers).map (fun s2 => s2.id)).contains s₀.id
      · simp
      · exact absurd hx hc
    have hcond2 : ¬((nonTerminal b && b.seats.contains s₀.id) = true) := by
      rw [hcond]; exact Bool.false_ne_true
    constructor
    · rw [holders_append, if_neg hcond2]
      simpa using hold.1
    · rw [holders_append, if_neg hcond2]
      simpa using hold.2

theorem holders_expire_map (bs : List Booking) (bid : String) (now : Nat) (sid : String) :
    holders (bs.map (fun b2 =>
        if b2.id == bid then { b2 with status := BookingStatus.FAILED, updated_at := now }
        else b2)) sid
      = (holders bs sid).filter (fun c => !(c.id == bid)) := by
  unfold holders
  rw [List.filter_map, List.filter_filter]
  have hcongr : ∀ c ∈ bs,
      ((fun b => nonTerminal b && b.seats.contains sid) ∘ (fun b2 =>
        if b2.id == bid then { b2 with status := BookingStatus.FAILED, updated_at := now }
        else b2)) c
      = (fun c => (!(c.id == bid)) && (nonTerminal c && c.seats.contains sid)) c := by
    intro c hcm
    by_cases hcb : (c.id == bid) = true
    · simp [Function.comp, hcb, nonTerminal]
    · simp only [Bool.not_eq_true] at hcb
      simp [Function.comp, hcb]
  rw [List.filter_congr hcongr]
  have hid : ∀ c ∈ bs.filter (fun c => (!(c.id == bid)) && (nonTerminal c && c.seats.contains sid)),
      (fun b2 => if b2.id == bid then
          { b2 with status := BookingStatus.FAILED, updated_at := now } else b2) c = c := by
    intro c hcm
    have := (List.mem_filter.mp hcm).2
    simp only [Bool.and_eq_true, Bool.not_eq_eq_eq_not, Bool.not_true] at this
    simp [this.1]
  rw [List.map_congr_left hid]
  simp

theorem expireItem_none (store : Store) (bid : String) (now : Nat)
    (hfind : store.bookings.find? (fun b => b.id == bid) = none) :
    expireItem store bid now = store := by
  simp [expireItem, hfind]

theorem expireItem_nonpending (store : Store) (bid : String) (now : Nat) (b : Booking)
    (hfind : store.bookings.find? (fun c => c.id == bid) = some b)
    (hp : b.status ≠ BookingStatus.PENDING) :
    expireItem store bid now = store := by
  simp [expireItem, hfind, hp]

theorem expireItem_update (store : Store) (bid : String) (now : Nat) (b : Booking)
    (hfind : store.bookings.find? (fun c => c.id == bid) = some b)
    (hp : b.status = BookingStatus.PENDING) :
    expireItem store bid now =
      { seats := store.seats.map (fun s =>
          if b.seats.contains s.id then { s with status := SeatStatus.AVAILABLE } else s),
        bookings := store.bookings.map (fun b2 =>
          if b2.id == bid then { b2 with status := BookingStatus.FAILED, updated_at := now }
          else b2) } := by
  simp [expireItem, hfind, hp]

theorem invariant_expireItem (store : Store) (bid : String) (now : Nat)
    (hwfB : (store.bookings.map (fun b => b.id)).Nodup)
    (hinv : Invariant store) : Invariant (expireItem store bid now) := by
  cases hfind : store.bookings.find? (fun b => b.id == bid) with
  | none => rw [expireItem_none store bid now hfind]; exact hinv
  | some b =>
    rcases eq_or_ne b.status BookingStatus.PENDING with hp | hp
    · rw [expireItem_update store bid now b hfind hp]
      have hbid : b.id = bid := by simpa using List.find?_some hfind
      have hbmem : b ∈ store.bookings := List.mem_of_find?_eq_some hfind
      intro s hsmem
      simp only [List.mem_map] at hsmem
      obtain ⟨s₀, hs₀, rfl⟩ := hsmem
      have hold := hinv s₀ hs₀
      by_cases hc : (b.seats.contains s₀.id) = true
      · -- the seat is freed; its unique holder was b, which is now FAILED
        have hbhold : b ∈ holders store.bookings s₀.id := by
          simp only [holders, List.mem_filter]
          refine ⟨hbmem, ?_⟩
          simp only [nonTerminal, hp]
          simpa using hc
        have hsingle : holders store.bookings s₀.id = [b] :=
          length_le_one_mem_eq hold.1 hbhold
        rw [if_pos hc]
        constructor
        · rw [holders_expire_map, hsingle]
          simp [hbid]
        · rw [holders_expire_map, hsingle]
          simp [hbid]
      · -- untouched seat: its holder set never contained b
        have hfilter : (holders store.bookings s₀.id).filter (fun c => !(c.id == bid))
            = holders store.bookings s₀.id := by
          rw [List.filter_eq_self]
          intro c hcm
          simp only [Bool.not_eq_eq_eq_not, Bool.not_true, beq_eq_false_iff_ne, ne_eq]
          intro hcid
          have hcmem : c ∈ store.bookings := (List.mem_filter.mp hcm).1
          have hcb : c = b := List.inj_on_of_nodup_map hwfB hcmem hbmem (hcid.trans hbid.symm)
          have hq := (List.mem_filter.mp hcm).2
          rw [hcb] at hq
          simp only [Bool.and_eq_true] at hq
          exact hc hq.2
        rw [if_neg hc]
        constructor
        · rw [holders_expire_map, hfilter]
          exact hold.1
        · rw [holders_expire_map, hfilter]
          exact hold.2
    · rw [expireItem_nonpending store bid now b hfind hp]
      exact hinv



/-- C2: every operation of the core — a successful `createBooking`, a failed
`createBooking` including its post-rollback cleanup (with the fresh booking
id `uuidv4` supplies), and each per-item reconciler transaction — preserves
the holding invariant: every seat has at most one non-terminal booking
referencing it, and its status is `BOOKED` exactly when such a booking
exists. -/
theorem c2_holding_invariant (store : Store)
    (hwf : WFStore store) (hinv : Invariant store)
    (bookingId showId : String) (seatNumbers : List String) (userId : Option String)
    (now : Nat) (sf cf : Bool)
    (hfresh : bookingId ∉ store.bookings.map (fun b => b.id))
    (bid : String) (now2 : Nat) :
    Invariant (createBooking store bookingId showId seatNumbers userId now sf cf).1 ∧
    Invariant (expireItem store bid now2) := by
  refine ⟨?_, invariant_expireItem store bid now2 hwf.2 hinv⟩
  cases hres : (createBooking store bookingId showId seatNumbers userId now sf cf).2 with
  | error e =>
      rw [createBooking_fst_of_error _ _ _ _ _ _ _ _ hfresh e hres]
      exact hinv
  | ok b =>
      obtain ⟨hbval, hfst, havail, _, _, _, _⟩ := createBooking_ok_spec _ _ _ _ _ _ _ _ b hres
      rw [hfst]
      have hbseats : b.seats = (lockSeats store showId seatNumbers).map (fun s => s.id) := by
        rw [hbval]
      have hbst : b.status = BookingStatus.PENDING := by rw [hbval]
      exact invariant_commit store showId seatNumbers b hwf.1 hinv hbseats hbst havail

/-- Witness for C2 at a concrete store satisfying the invariant: a reserve
call and a reconciler item both preserve it. -/
theorem c2_holding_invariant_witness :
    Invariant (createBooking ⟨[⟨"s1", "g", "1", SeatStatus.AVAILABLE⟩,
        ⟨"s2", "g", "2", SeatStatus.BOOKED⟩],
        [⟨"b0", "g", none, ["s2"], BookingStatus.PENDING, 0, 0⟩]⟩
      "b1" "g" ["1"] none 5 false false).1 ∧
    Invariant (expireItem ⟨[⟨"s1", "g", "1", SeatStatus.AVAILABLE⟩,
        ⟨"s2", "g", "2", SeatStatus.BOOKED⟩],
        [⟨"b0", "g", none, ["s2"], BookingStatus.PENDING, 0, 0⟩]⟩ "b0" 7) :=
  c2_holding_invariant ⟨[⟨"s1", "g", "1", SeatStatus.AVAILABLE⟩,
      ⟨"s2", "g", "2", SeatStatus.BOOKED⟩],
      [⟨"b0", "g", none, ["s2"], BookingStatus.PENDING, 0, 0⟩]⟩
    (by decide) (by decide) "b1" "g" ["1"] none 5 false false
    (by decide) "b0" 7

theorem expireItem_find?_preserved (st : Store) (bid2 : String) (now : Nat) (x : String)
    (b : Booking) (hfind : st.bookings.find? (fun c => c.id == x) = some b)
    (h : bid2 ≠ x ∨ b.status ≠ BookingStatus.PENDING) :
    (expireItem st bid2 now).bookings.find? (fun c => c.id == x) = some b := by
  cases hf2 : st.bookings.find? (fun c => c.id == bid2) with
  | none => rw [expireItem_none st bid2 now hf2]; exact hfind
  | some b2 =>
    rcases eq_or_ne b2.status BookingStatus.PENDING with hp2 | hp2
    · rw [expireItem_update st bid2 now b2 hf2 hp2]
      have hbx : b.id = x := by simpa using List.find?_some hfind
      have hne : bid2 ≠ x := by
        rcases h with h | h
        · exact h
        · intro he
          rw [he, hfind] at hf2
          injection hf2 with hbb
          rw [← hbb] at hp2
          exact h hp2
      rw [List.find?_map]
      have hpf : ((fun (c : Booking) => c.id == x) ∘ (fun (b2 : Booking) =>
          if b2.id == bid2 then { b2 with status := BookingStatus.FAILED, updated_at := now }
          else b2)) = (fun (c : Booking) => c.id == x) := by
        funext c
        by_cases hcb : (c.id == bid2) = true
        · simp [Function.comp, hcb]
        · simp [Function.comp, hcb]
      rw [hpf, hfind]
      have hbb2 : (b.id == bid2) = false := by
        simp only [beq_eq_false_iff_ne, ne_eq, hbx]
        exact fun he => hne he.symm
      simp only [Option.map_some']
      rw [if_neg (by simp [hbb2])]
    · rw [expireItem_nonpending st bid2 now b2 hf2 hp2]; exact hfind

theorem expireItem_avail_preserved (st : Store) (bid2 : String) (now : Nat) (ids : List String)
    (h : ∀ s ∈ st.seats, s.id ∈ ids → s.status = SeatStatus.AVAILABLE) :
    ∀ s ∈ (expireItem st bid2 now).seats, s.id ∈ ids → s.status = SeatStatus.AVAILABLE := by
  cases hf2 : st.bookings.find? (fun c => c.id == bid2) with
  | none => rw [expireItem_none st bid2 now hf2]; exact h
  | some b2 =>
    rcases eq_or_ne b2.status BookingStatus.PENDING with hp2 | hp2
    · rw [expireItem_update st bid2 now b2 hf2 hp2]
      intro s hsmem hsid
      simp only [List.mem_map] at hsmem
      obtain ⟨s₀, hs₀, rfl⟩ := hsmem
      by_cases hc : (b2.seats.contains s₀.id) = true
      · rw [if_pos hc]
      · rw [if_neg hc] at hsid ⊢
        exact h s₀ hs₀ hsid
    · rw [expireItem_nonpending st bid2 now b2 hf2 hp2]; exact h

theorem find?_of_mem_nodup (bs : List Booking) (b : Booking)
    (hwfB : (bs.map (fun c => c.id)).Nodup) (hmem : b ∈ bs) :
    bs.find? (fun c => c.id == b.id) = some b := by
  induction bs with
  | nil => cases hmem
  | cons a l ih =>
    simp only [List.map_cons, List.nodup_cons] at hwfB
    rcases List.mem_cons.mp hmem with rfl | hmem2
    · rw [List.find?_cons_of_pos _ (by simp)]
    · have hane : (a.id == b.id) = false := by
        simp only [beq_eq_false_iff_ne, ne_eq]
        intro he
        exact hwfB.1 (by rw [he]; exact List.mem_map.mpr ⟨b, hmem2, rfl⟩)
      rw [List.find?_cons_of_neg _ (by simp [hane])]
      exact ih hwfB.2 hmem2

theorem runBatch_cons (st : Store) (now : Nat) (a : String) (l : List String)
    (fails : String → Bool) :
    runBatch st now (a :: l) fails
      = runBatch (if fails a then st else expireItem st a now) now l fails := rfl

theorem runBatch_find?_preserved (now : Nat) (fails : String → Bool) (l : List String)
    (st : Store) (x : String) (b : Booking)
    (hfind : st.bookings.find? (fun c => c.id == x) = some b)
    (h : ∀ bid2 ∈ l, bid2 ≠ x ∨ b.status ≠ BookingStatus.PENDING) :
    (runBatch st now l fails).bookings.find? (fun c => c.id == x) = some b := by
  induction l generalizing st with
  | nil => exact hfind
  | cons a l ih =>
    rw [runBatch_cons]
    have hstep : ((if fails a then st else expireItem st a now)).bookings.find?
        (fun c => c.id == x) = some b := by
      by_cases hfa : fails a = true
      · rw [if_pos hfa]; exact hfind
      · rw [if_neg hfa]
        exact expireItem_find?_preserved st a now x b hfind (h a (List.mem_cons_self a l))
    exact ih _ hstep (fun bid2 hb2 => h bid2 (List.mem_cons_of_mem _ hb2))

theorem runBatch_avail_preserved (now : Nat) (fails : String → Bool) (l : List String)
    (st : Store) (ids : List String)
    (h : ∀ s ∈ st.seats, s.id ∈ ids → s.status = SeatStatus.AVAILABLE) :
    ∀ s ∈ (runBatch st now l fails).seats, s.id ∈ ids → s.status = SeatStatus.AVAILABLE := by
  induction l generalizing st with
  | nil => exact h
  | cons a l ih =>
    rw [runBatch_cons]
    refine ih _ ?_
    by_cases hfa : fails a = true
    · rw [if_pos hfa]; exact h
    · rw [if_neg hfa]
      exact expireItem_avail_preserved st a now ids h

theorem runBatch_skip_filter (now : Nat) (fails : String → Bool) (l : List String)
    (st : Store) :
    runBatch st now l fails
      = runBatch st now (l.filter (fun x => !(fails x))) (fun _ => false) := by
  induction l generalizing st with
  | nil => rfl
  | cons a l ih =>
    rw [runBatch_cons]
    by_cases hfa : fails a = true
    · rw [if_pos hfa, List.filter_cons_of_neg (by simp [hfa])]
      exact ih st
    · have hfa2 : fails a = false := by simpa using hfa
      rw [if_neg hfa, List.filter_cons_of_pos (by simp [hfa2])]
      rw [runBatch_cons]
      rw [if_neg (by simp)]
      exact ih _

theorem expiryCandidates_nodup (store : Store) (now d : Nat)
    (hwfB : (store.bookings.map (fun b => b.id)).Nodup) :
    (expiryCandidates store now d).Nodup := by
  unfold expiryCandidates
  have h1 : ((store.bookings.filter (isStalePending now d)).map (fun b => b.id)).Nodup :=
    ((List.filter_sublist store.bookings).map _).nodup hwfB
  have h2 : ((List.insertionSort (fun a b => a.created_at ≤ b.created_at)
      (store.bookings.filter (isStalePending now d))).map (fun b => b.id)).Nodup := by
    refine List.Perm.nodup ?_ h1
    exact (List.perm_insertionSort _ _).symm.map _
  exact ((List.take_sublist _ _).map _).nodup h2

theorem gotLock_cycle (store : Store) (now d : Nat) (fails : String → Bool) :
    processExpiryCycle store now d true fails
      = runBatch store now (expiryCandidates store now d) fails := rfl

/-- Any candidate whose per-item transaction does not fail ends the cycle
`FAILED` with all its seats `AVAILABLE`, regardless of which other items
fail. -/
theorem runCycle_processes_candidate (store : Store) (now d : Nat) (b : Booking)
    (fails : String → Bool)
    (hwfB : (store.bookings.map (fun c => c.id)).Nodup)
    (hmem : b ∈ store.bookings)
    (hpend : b.status = BookingStatus.PENDING)
    (hnf : fails b.id = false)
    (hbatch : b.id ∈ expiryCandidates store now d) :
    (processExpiryCycle store now d true fails).bookings.find? (fun c => c.id == b.id)
      = some { b with status := BookingStatus.FAILED, updated_at := now } ∧
    (∀ s ∈ (processExpiryCycle store now d true fails).seats,
        s.id ∈ b.seats → s.status = SeatStatus.AVAILABLE) := by
  rw [gotLock_cycle]
  obtain ⟨l1, l2, hsplit⟩ := List.append_of_mem hbatch
  have hnodup : (expiryCandidates store now d).Nodup := expiryCandidates_nodup store now d hwfB
  rw [hsplit] at hnodup
  have hl1 : ∀ bid2 ∈ l1, bid2 ≠ b.id := by
    intro bid2 hb2 he
    rw [List.nodup_append] at hnodup
    exact hnodup.2.2 hb2 (he ▸ List.mem_cons_self _ _)
  rw [hsplit]
  have hfind0 : store.bookings.find? (fun c => c.id == b.id) = some b :=
    find?_of_mem_nodup store.bookings b hwfB hmem
  -- state after the candidates before b
  have hfind1 : (runBatch store now l1 fails).bookings.find? (fun c => c.id == b.id)
      = some b :=
    runBatch_find?_preserved now fails l1 store b.id b hfind0
      (fun bid2 hb2 => Or.inl (hl1 bid2 hb2))
  -- the hit: b is expired
  have hexp := expireItem_update (runBatch store now l1 fails) b.id now b hfind1 hpend
  have hfind2 : (expireItem (runBatch store now l1 fails) b.id now).bookings.find?
      (fun c => c.id == b.id)
      = some { b with status := BookingStatus.FAILED, updated_at := now } := by
    rw [hexp]
    rw [List.find?_map]
    have hpf : ((fun (c : Booking) => c.id == b.id) ∘ (fun (b2 : Booking) =>
        if b2.id == b.id then { b2 with status := BookingStatus.FAILED, updated_at := now }
        else b2)) = (fun (c : Booking) => c.id == b.id) := by
      funext c
      by_cases hcb : (c.id == b.id) = true
      · simp [Function.comp, hcb]
      · simp [Function.comp, hcb]
    rw [hpf, hfind1]
    simp
  have havail2 : ∀ s ∈ (expireItem (runBatch store now l1 fails) b.id now).seats,
      s.id ∈ b.seats → s.status = SeatStatus.AVAILABLE := by
    rw [hexp]
    intro s hsmem hsid
    simp only [List.mem_map] at hsmem
    obtain ⟨s₀, hs₀, rfl⟩ := hsmem
    by_cases hc : (b.seats.contains s₀.id) = true
    · rw [if_pos hc]
    · rw [if_neg hc] at hsid
      exact absurd (by simpa using hsid) (by simpa using hc)
  -- run the tail of the batch
  have hbatchrw : runBatch store now (l1 ++ b.id :: l2) fails
      = runBatch (if fails b.id then runBatch store now l1 fails
          else expireItem (runBatch store now l1 fails) b.id now) now l2 fails := by
    unfold runBatch
    rw [List.foldl_append, List.foldl_cons]
  rw [hbatchrw, if_neg (by simp [hnf])]
  constructor
  · refine runBatch_find?_preserved now fails l2 _ b.id _ hfind2 ?_
    intro bid2 hb2
    exact Or.inr (by simp)
  · exact runBatch_avail_preserved now fails l2 _ b.seats havail2

theorem cycle_preserves_nonpending (store : Store) (now d : Nat) (gl : Bool)
    (fails : String → Bool) (c : Booking)
    (hwfB : (store.bookings.map (fun c2 => c2.id)).Nodup)
    (hmem : c ∈ store.bookings) (hnp : c.status ≠ BookingStatus.PENDING) :
    (processExpiryCycle store now d gl fails).bookings.find? (fun c2 => c2.id == c.id)
      = some c := by
  have hfind0 : store.bookings.find? (fun c2 => c2.id == c.id) = some c :=
    find?_of_mem_nodup store.bookings c hwfB hmem
  cases gl with
  | false => exact hfind0
  | true =>
      rw [gotLock_cycle]
      exact runBatch_find?_preserved now fails _ store c.id c hfind0
        (fun bid2 hb2 => Or.inr hnp)

/-- C3 (amended): every booking that is still `PENDING`, older than the
deadline, and selected into the cycle's batch of (at most 100, oldest-first)
candidates is `FAILED` after the cycle with all its seats `AVAILABLE`; a
booking confirmed before the cycle runs is left entirely unmodified even if
older than the deadline. -/
theorem c3_expiry_correct (store : Store) (now d : Nat) (b : Booking)
    (hwfB : (store.bookings.map (fun c => c.id)).Nodup)
    (hmem : b ∈ store.bookings)
    (hpend : b.status = BookingStatus.PENDING)
    (_hstale : b.created_at + d < now)
    (hbatch : b.id ∈ expiryCandidates store now d) :
    (processExpiryCycle store now d true (fun _ => false)).bookings.find?
        (fun c => c.id == b.id)
      = some { b with status := BookingStatus.FAILED, updated_at := now } ∧
    (∀ s ∈ (processExpiryCycle store now d true (fun _ => false)).seats,
        s.id ∈ b.seats → s.status = SeatStatus.AVAILABLE) ∧
    (∀ c ∈ store.bookings, c.status = BookingStatus.CONFIRMED →
      (processExpiryCycle store now d true (fun _ => false)).bookings.find?
          (fun c2 => c2.id == c.id) = some c) := by
  obtain ⟨h1, h2⟩ := runCycle_processes_candidate store now d b (fun _ => false)
    hwfB hmem hpend rfl hbatch
  refine ⟨h1, h2, ?_⟩
  intro c hcmem hcst
  exact cycle_preserves_nonpending store now d true (fun _ => false) c hwfB hcmem
    (by rw [hcst]; exact fun h => BookingStatus.noConfusion h)

/-- Witness for C3 at a concrete store: a stale pending booking holding one
seat is failed and its seat freed by one cycle, while a confirmed stale
booking is untouched. -/
theorem c3_expiry_correct_witness :
    (processExpiryCycle ⟨[⟨"s1", "g", "1", SeatStatus.BOOKED⟩],
        [⟨"b0", "g", none, ["s1"], BookingStatus.PENDING, 0, 0⟩,
         ⟨"bc", "g", none, [], BookingStatus.CONFIRMED, 0, 0⟩]⟩ 1000 10 true
        (fun _ => false)).bookings.find? (fun c => c.id == "b0")
      = some ⟨"b0", "g", none, ["s1"], BookingStatus.FAILED, 0, 1000⟩ ∧
    (∀ s ∈ (processExpiryCycle ⟨[⟨"s1", "g", "1", SeatStatus.BOOKED⟩],
        [⟨"b0", "g", none, ["s1"], BookingStatus.PENDING, 0, 0⟩,
         ⟨"bc", "g", none, [], BookingStatus.CONFIRMED, 0, 0⟩]⟩ 1000 10 true
        (fun _ => false)).seats,
      s.id ∈ (["s1"] : List String) → s.status = SeatStatus.AVAILABLE) ∧
    (∀ c ∈ (⟨[⟨"s1", "g", "1", SeatStatus.BOOKED⟩],
        [⟨"b0", "g", none, ["s1"], BookingStatus.PENDING, 0, 0⟩,
         ⟨"bc", "g", none, [], BookingStatus.CONFIRMED, 0, 0⟩]⟩ : Store).bookings,
      c.status = BookingStatus.CONFIRMED →
      (processExpiryCycle ⟨[⟨"s1", "g", "1", SeatStatus.BOOKED⟩],
          [⟨"b0", "g", none, ["s1"], BookingStatus.PENDING, 0, 0⟩,
           ⟨"bc", "g", none, [], BookingStatus.CONFIRMED, 0, 0⟩]⟩ 1000 10 true
          (fun _ => false)).bookings.find? (fun c2 => c2.id == c.id) = some c) :=
  c3_expiry_correct ⟨[⟨"s1", "g", "1", SeatStatus.BOOKED⟩],
      [⟨"b0", "g", none, ["s1"], BookingStatus.PENDING, 0, 0⟩,
       ⟨"bc", "g", none, [], BookingStatus.CONFIRMED, 0, 0⟩]⟩ 1000 10
    ⟨"b0", "g", none, ["s1"], BookingStatus.PENDING, 0, 0⟩
    (by decide) (by decide) (by decide) (by decide) (by decide)



/-- C3 counterexample: booking "z" is `PENDING` and older than the deadline
when the cycle runs, yet after the cycle it is still `PENDING` — the
candidate query's `LIMIT 100` leaves it for a later cycle, refuting the
claim for every stale pending booking. -/
theorem c3_expiry_batch_counterexample :
    (⟨"z", "g", none, [], BookingStatus.PENDING, 100, 100⟩ : Booking) ∈ bigStore.bookings ∧
    (100 : Nat) + 10 < 1000 ∧
    (processExpiryCycle bigStore 1000 10 true (fun _ => false)).bookings.find?
        (fun c => c.id == "z")
      = some ⟨"z", "g", none, [], BookingStatus.PENDING, 100, 100⟩ := by
  refine ⟨by decide, by decide, by decide⟩

/-- C9: a failing per-item transaction is rolled back in isolation — the
cycle's outcome is exactly that of processing every other candidate, in
order, without failures; in particular every candidate whose own transaction
does not fail is still expired. -/
theorem c9_per_item_isolation (store : Store) (now d : Nat) (fails : String → Bool) :
    (processExpiryCycle store now d true fails
      = runBatch store now ((expiryCandidates store now d).filter (fun x => !(fails x)))
          (fun _ => false)) ∧
    (∀ b ∈ store.bookings, (store.bookings.map (fun c => c.id)).Nodup →
      b.status = BookingStatus.PENDING → fails b.id = false →
      b.id ∈ expiryCandidates store now d →
      (processExpiryCycle store now d true fails).bookings.find? (fun c => c.id == b.id)
        = some { b with status := BookingStatus.FAILED, updated_at := now }) := by
  constructor
  · rw [gotLock_cycle]
    exact runBatch_skip_filter now fails _ store
  · intro b hmem hwfB hpend hnf hbatch
    exact (runCycle_processes_candidate store now d b fails hwfB hmem hpend hnf hbatch).1

/-- Witness for C9: with candidate "b1" failing, candidate "b2" is still
expired by the same cycle. -/
theorem c9_per_item_isolation_witness :
    (processExpiryCycle ⟨[⟨"s1", "g", "1", SeatStatus.BOOKED⟩,
        ⟨"s2", "g", "2", SeatStatus.BOOKED⟩],
        [⟨"b1", "g", none, ["s1"], BookingStatus.PENDING, 0, 0⟩,
         ⟨"b2", "g", none, ["s2"], BookingStatus.PENDING, 1, 1⟩]⟩ 1000 10 true
        (fun x => x == "b1")).bookings.find? (fun c => c.id == "b2")
      = some ⟨"b2", "g", none, ["s2"], BookingStatus.FAILED, 1, 1000⟩ :=
  (c9_per_item_isolation ⟨[⟨"s1", "g", "1", SeatStatus.BOOKED⟩,
      ⟨"s2", "g", "2", SeatStatus.BOOKED⟩],
      [⟨"b1", "g", none, ["s1"], BookingStatus.PENDING, 0, 0⟩,
       ⟨"b2", "g", none, ["s2"], BookingStatus.PENDING, 1, 1⟩]⟩ 1000 10
    (fun x => x == "b1")).2 ⟨"b2", "g", none, ["s2"], BookingStatus.PENDING, 1, 1⟩
    (by decide) (by decide) (by decide) (by decide) (by decide)

/-- C5: no operation ever writes a status over a terminal (`CONFIRMED` or
`FAILED`) booking: a reserve call (with its fresh uuid), a per-item
reconciler transaction, and a whole reconciliation cycle all leave a
terminal booking's row exactly as it was. -/
theorem c5_terminal_immutable (store : Store) (b : Booking)
    (hwfB : (store.bookings.map (fun c => c.id)).Nodup)
    (hmem : b ∈ store.bookings)
    (hterm : b.status = BookingStatus.CONFIRMED ∨ b.status = BookingStatus.FAILED)
    (bookingId showId : String) (seatNumbers : List String) (userId : Option String)
    (now : Nat) (sf cf : Bool)
    (hfresh : bookingId ∉ store.bookings.map (fun c => c.id))
    (bid : String) (now2 d : Nat) (gl : Bool) (fails : String → Bool) :
    ((createBooking store bookingId showId seatNumbers userId now sf cf).1.bookings.find?
        (fun c => c.id == b.id) = some b) ∧
    ((expireItem store bid now2).bookings.find? (fun c => c.id == b.id) = some b) ∧
    ((processExpiryCycle store now2 d gl fails).bookings.find? (fun c => c.id == b.id)
      = some b) := by
  have hnp : b.status ≠ BookingStatus.PENDING := by
    rcases hterm with h | h <;> rw [h] <;> exact fun h2 => BookingStatus.noConfusion h2
  have hfind0 : store.bookings.find? (fun c => c.id == b.id) = some b :=
    find?_of_mem_nodup store.bookings b hwfB hmem
  refine ⟨?_, ?_, ?_⟩
  · cases hres : (createBooking store bookingId showId seatNumbers userId now sf cf).2 with
    | error e =>
        rw [createBooking_fst_of_error _ _ _ _ _ _ _ _ hfresh e hres]
        exact hfind0
    | ok b2 =>
        obtain ⟨_, hfst, _⟩ := createBooking_ok_spec _ _ _ _ _ _ _ _ b2 hres
        rw [hfst]
        show (store.bookings ++ [b2]).find? (fun c => c.id == b.id) = some b
        rw [List.find?_append, hfind0]
        rfl
  · exact expireItem_find?_preserved store bid now2 b.id b hfind0 (Or.inr hnp)
  · exact cycle_preserves_nonpending store now2 d gl fails b hwfB hmem hnp

/-- Witness for C5 at a concrete store holding one `FAILED` booking: reserve,
per-item expiry at its own id, and a full cycle all leave it untouched. -/
theorem c5_terminal_immutable_witness :
    ((createBooking ⟨[⟨"s1", "g", "1", SeatStatus.AVAILABLE⟩],
        [⟨"b0", "g", none, ["s1"], BookingStatus.FAILED, 0, 0⟩]⟩
        "b1" "g" ["1"] none 5 false false).1.bookings.find? (fun c => c.id == "b0")
      = some ⟨"b0", "g", none, ["s1"], BookingStatus.FAILED, 0, 0⟩) ∧
    ((expireItem ⟨[⟨"s1", "g", "1", SeatStatus.AVAILABLE⟩],
        [⟨"b0", "g", none, ["s1"], BookingStatus.FAILED, 0, 0⟩]⟩ "b0" 9).bookings.find?
        (fun c => c.id == "b0")
      = some ⟨"b0", "g", none, ["s1"], BookingStatus.FAILED, 0, 0⟩) ∧
    ((processExpiryCycle ⟨[⟨"s1", "g", "1", SeatStatus.AVAILABLE⟩],
        [⟨"b0", "g", none, ["s1"], BookingStatus.FAILED, 0, 0⟩]⟩ 9 2 true
        (fun _ => false)).bookings.find? (fun c => c.id == "b0")
      = some ⟨"b0", "g", none, ["s1"], BookingStatus.FAILED, 0, 0⟩) :=
  c5_terminal_immutable ⟨[⟨"s1", "g", "1", SeatStatus.AVAILABLE⟩],
      [⟨"b0", "g", none, ["s1"], BookingStatus.FAILED, 0, 0⟩]⟩
    ⟨"b0", "g", none, ["s1"], BookingStatus.FAILED, 0, 0⟩
    (by decide) (by decide) (Or.inr (by decide)) "b1" "g" ["1"] none 5 false false
    (by decide) "b0" 9 2 true (fun _ => false)



theorem statusOk_rollbackCleanup (store : Store) (bid : String) (cf : Bool)
    (h : StatusOk store) : StatusOk (rollbackCleanup store bid cf) := by
  cases cf with
  | true => exact h
  | false =>
    intro b hb
    have hb2 : b ∈ markBookingFailed store.bookings bid := hb
    simp only [markBookingFailed, List.mem_map] at hb2
    obtain ⟨b₀, hb₀, rfl⟩ := hb2
    by_cases hc : (b₀.id == bid) = true
    · rw [if_pos hc]
      exact Or.inr rfl
    · rw [if_neg hc]
      exact h b₀ hb₀

theorem statusOk_createBooking (store : Store) (bookingId showId : String)
    (seatNumbers : List String) (userId : Option String) (now : Nat) (sf cf : Bool)
    (h : StatusOk store) :
    StatusOk (createBooking store bookingId showId seatNumbers userId now sf cf).1 := by
  by_cases hs : (showId == "") = true
  · simp only [createBooking, hs, if_true]
    exact h
  · by_cases he : seatNumbers.isEmpty = true
    · simp [createBooking, hs, he]
      exact h
    · by_cases hl : (lockSeats store showId seatNumbers).length = seatNumbers.length
      · cases hf : (lockSeats store showId seatNumbers).find?
            (fun s => s.status != SeatStatus.AVAILABLE) with
        | some taken =>
            simp [createBooking, hs, he, hl, hf]
            exact statusOk_rollbackCleanup store bookingId cf h
        | none =>
            cases sf with
            | true =>
                simp [createBooking, hs, he, hl, hf]
                exact statusOk_rollbackCleanup store bookingId cf h
            | false =>
                simp only [createBooking, hs, he, hl, hf]
                simp only [Bool.false_eq_true, if_false, ne_eq, not_true_eq_false]
                intro b hb
                rcases List.mem_append.mp hb with hb2 | hb2
                · exact h b hb2
                · rcases List.mem_singleton.mp hb2 with rfl
                  exact Or.inl rfl
      · simp [createBooking, hs, he, hl]
        exact statusOk_rollbackCleanup store bookingId cf h

theorem statusOk_expireItem (store : Store) (bid : String) (now : Nat)
    (h : StatusOk store) : StatusOk (expireItem store bid now) := by
  cases hfind : store.bookings.find? (fun b => b.id == bid) with
  | none => rw [expireItem_none store bid now hfind]; exact h
  | some b =>
    rcases eq_or_ne b.status BookingStatus.PENDING with hp | hp
    · rw [expireItem_update store bid now b hfind hp]
      intro c hc
      simp only [List.mem_map] at hc
      obtain ⟨c₀, hc₀, rfl⟩ := hc
      by_cases hcb : (c₀.id == bid) = true
      · rw [if_pos hcb]
        exact Or.inr rfl
      · rw [if_neg hcb]
        exact h c₀ hc₀
    · rw [expireItem_nonpending store bid now b hfind hp]
      exact h

theorem statusOk_runBatch (now : Nat) (fails : String → Bool) (l : List String)
    (st : Store) (h : StatusOk st) : StatusOk (runBatch st now l fails) := by
  induction l generalizing st with
  | nil => exact h
  | cons a l ih =>
    rw [runBatch_cons]
    refine ih _ ?_
    by_cases hfa : fails a = true
    · rw [if_pos hfa]; exact h
    · rw [if_neg hfa]
      exact statusOk_expireItem st a now h

theorem statusOk_cycle (store : Store) (now d : Nat) (gl : Bool)
    (fails : String → Bool) (h : StatusOk store) :
    StatusOk (processExpiryCycle store now d gl fails) := by
  cases gl with
  | false => exact h
  | true =>
      rw [gotLock_cycle]
      exact statusOk_runBatch now fails _ store h

theorem reachable_statusOk (store : Store) (h : Reachable store) : StatusOk store := by
  induction h with
  | init => intro b hb; cases hb
  | addSeats st new hnew hr ih => intro b hb; exact ih b hb
  | reserve st bookingId showId seatNumbers userId now sf cf hr ih =>
      exact statusOk_createBooking st bookingId showId seatNumbers userId now sf cf ih
  | expiry st now d gl fails hr ih =>
      exact statusOk_cycle st now d gl fails ih

/-- C10: nothing in the code ever writes `CONFIRMED`: every booking is
inserted `PENDING`, the only status updates write `FAILED`, so in every
reachable store state every booking is `PENDING` or `FAILED` — the
`PENDING → CONFIRMED` transition of the data model is never taken. -/
theorem c10_confirmed_unreachable (store : Store) (h : Reachable store) :
    (∀ b ∈ store.bookings,
      b.status = BookingStatus.PENDING ∨ b.status = BookingStatus.FAILED) ∧
    (∀ (st : Store) (bookingId showId : String) (seatNumbers : List String)
        (userId : Option String) (now : Nat) (sf cf : Bool) (b : Booking),
      (createBooking st bookingId showId seatNumbers userId now sf cf).2 = Except.ok b →
      b.status = BookingStatus.PENDING) := by
  refine ⟨reachable_statusOk store h, ?_⟩
  intro st bookingId showId seatNumbers userId now sf cf b hb
  obtain ⟨hbval, _⟩ := createBooking_ok_spec _ _ _ _ _ _ _ _ b hb
  rw [hbval]

/-- Witness for C10 at the initial store. -/
theorem c10_confirmed_unreachable_witness :
    (∀ b ∈ (⟨[], []⟩ : Store).bookings,
      b.status = BookingStatus.PENDING ∨ b.status = BookingStatus.FAILED) ∧
    (∀ (st : Store) (bookingId showId : String) (seatNumbers : List String)
        (userId : Option String) (now : Nat) (sf cf : Bool) (b : Booking),
      (createBooking st bookingId showId seatNumbers userId now sf cf).2 = Except.ok b →
      b.status = BookingStatus.PENDING) :=
  c10_confirmed_unreachable ⟨[], []⟩ Reachable.init

end Modex
